import Mathlib

/-!
Verification of the docstring2argparse metadata-extraction pipeline
(src/docstring2argparse/__init__.py) via a shallow embedding.

Python runtime values that flow through the pipeline (metadata tuples,
lists, strings, booleans, type objects and None) are embedded as the
inductive type PyVal; Python exceptions are embedded as PyErr and
fallible code returns Except PyErr.  Python recursion depth is modelled
by an explicit fuel parameter where the source recursion is not
structurally bounded (function_parser_union.union).  The docutils
reStructuredText document model is an external collaborator (spec paper
section 6), so a function's parsed docstring is embedded as an already
parsed tree of Node values; the extractor logic over that tree follows
the source line by line.
-/

/-- Python exceptions raised by the code under study.  Exception messages
are elided; UnAnnotatedError and AnnotationFormatError are subclasses of
TypeError in the source. -/
inductive PyErr where
  | assertionError
  | valueError
  | typeError
  | unAnnotatedError
  | annotationFormatError
  | notImplementedError
  | attributeError
  | recursionError
  | keyError
  | indexError
deriving DecidableEq, Repr

/-- Python exception classes, for the `except errskip` clause of
get_functions_raw (a raised exception is caught by a class when it is an
instance of that class or of a subclass). -/
inductive PyErrClass where
  | exceptionC
  | typeErrorC
  | unAnnotatedErrorC
  | annotationFormatErrorC
  | assertionErrorC
  | valueErrorC
  | attributeErrorC
  | notImplementedErrorC
  | recursionErrorC
  | keyErrorC
  | indexErrorC
deriving DecidableEq, Repr

/-- Python isinstance on exception classes.  UnAnnotatedError and
AnnotationFormatError derive from TypeError in the source, and every
exception is an instance of Exception. -/
def PyErr.isInstanceOf : PyErr → PyErrClass → Bool
  | _, .exceptionC => true
  | .typeError, .typeErrorC => true
  | .unAnnotatedError, .typeErrorC => true
  | .annotationFormatError, .typeErrorC => true
  | .unAnnotatedError, .unAnnotatedErrorC => true
  | .annotationFormatError, .annotationFormatErrorC => true
  | .assertionError, .assertionErrorC => true
  | .valueError, .valueErrorC => true
  | .attributeError, .attributeErrorC => true
  | .notImplementedError, .notImplementedErrorC => true
  | .recursionError, .recursionErrorC => true
  | .keyError, .keyErrorC => true
  | .indexError, .indexErrorC => true
  | _, _ => false

/-- A Python type expression as consumed by totype: a plain class
(isinstance(t, type) holds), a typing.Union[...] expression, or some
other parameterized generic (typing.get_origin yields a non-Union
origin). -/
inductive TyExpr where
  | plain (name : String)
  | tunion (args : List TyExpr)
  | generic (name : String) (args : List TyExpr)

-- Python equality on type expressions (structural: distinct classes are
-- distinct objects, typing expressions compare componentwise).
mutual
def TyExpr.beq : TyExpr → TyExpr → Bool
  | .plain a, .plain b => a == b
  | .tunion a, .tunion b => TyExpr.beqList a b
  | .generic a as, .generic b bs => a == b && TyExpr.beqList as bs
  | _, _ => false
def TyExpr.beqList : List TyExpr → List TyExpr → Bool
  | [], [] => true
  | a :: as, b :: bs => TyExpr.beq a b && TyExpr.beqList as bs
  | _, _ => false
end

/-- The class type(None). -/
def nonetype : TyExpr := TyExpr.plain ("NoneType")

/-- A Python value as it occurs in the metadata pipeline: None, a bool,
a string, an int, a type object / typing expression, a tuple or a
list. -/
inductive PyVal where
  | none
  | bool (b : Bool)
  | str (s : String)
  | int (n : Int)
  | ty (t : TyExpr)
  | tuple (xs : List PyVal)
  | list (xs : List PyVal)

/-- The sentinel inspect._empty ("no annotation" / "no default"); it is a
class, hence a type object at runtime. -/
def emptyVal : PyVal := PyVal.ty (TyExpr.plain ("inspect._empty"))

-- Python equality ( == ) on the embedded values: None, bools, strings
-- and ints compare by value, type objects by identity / typing
-- structure, tuples and lists elementwise (a tuple never equals a
-- list).  Python's cross-type numeric equalities (True == 1) are not
-- exercised by the pipeline and are not modelled.
mutual
def PyVal.beq : PyVal → PyVal → Bool
  | .none, .none => true
  | .bool a, .bool b => a == b
  | .str a, .str b => a == b
  | .int a, .int b => a == b
  | .ty a, .ty b => TyExpr.beq a b
  | .tuple a, .tuple b => PyVal.beqList a b
  | .list a, .list b => PyVal.beqList a b
  | _, _ => false
def PyVal.beqList : List PyVal → List PyVal → Bool
  | [], [] => true
  | a :: as, b :: bs => PyVal.beq a b && PyVal.beqList as bs
  | _, _ => false
end

/-- Python `x is None`. -/
def PyVal.isNone : PyVal → Bool
  | .none => true
  | _ => false

/-- The runtime class of a value, for the `type(x)==type(y)` comparison
in union. -/
inductive PyTag where
  | noneT | boolT | strT | intT | typeT | tupleT | listT
deriving DecidableEq, Repr

def PyVal.tag : PyVal → PyTag
  | .none => .noneT
  | .bool _ => .boolT
  | .str _ => .strT
  | .int _ => .intT
  | .ty _ => .typeT
  | .tuple _ => .tupleT
  | .list _ => .listT

/-- Python len(x): defined for strings, tuples and lists only
(hasattr(x, the length slot) is its definedness). -/
def PyVal.pyLen : PyVal → Option Nat
  | .str s => some s.length
  | .tuple xs => some xs.length
  | .list xs => some xs.length
  | _ => Option.none

/-- Iterating a sized value: a string yields its characters as
one-character strings, tuples and lists yield their elements. -/
def PyVal.seqElems : PyVal → List PyVal
  | .str s => s.toList.map (fun c => PyVal.str (String.singleton c))
  | .tuple xs => xs
  | .list xs => xs
  | _ => []

/-- Python truthiness. -/
def PyVal.truthy : PyVal → Bool
  | .none => false
  | .bool b => b
  | .str s => !(s.length == 0)
  | .int n => !(n == 0)
  | .ty _ => true
  | .tuple xs => !xs.isEmpty
  | .list xs => !xs.isEmpty

/-- Python x[i] for a non-negative index: indexing a string, tuple or
list; IndexError when out of range, TypeError on a non-subscriptable
value (in particular None). -/
def PyVal.getItem (v : PyVal) (i : Nat) : Except PyErr PyVal :=
  match v with
  | .str s =>
      match s.toList[i]? with
      | some c => Except.ok (PyVal.str (String.singleton c))
      | Option.none => Except.error PyErr.indexError
  | .tuple xs =>
      match xs[i]? with
      | some x => Except.ok x
      | Option.none => Except.error PyErr.indexError
  | .list xs =>
      match xs[i]? with
      | some x => Except.ok x
      | Option.none => Except.error PyErr.indexError
  | _ => Except.error PyErr.typeError

/-- Python iteration for comprehensions: strings, tuples and lists are
iterable, everything else raises TypeError. -/
def PyVal.pyIter : PyVal → Except PyErr (List PyVal)
  | .str s => Except.ok (s.toList.map (fun c => PyVal.str (String.singleton c)))
  | .tuple xs => Except.ok xs
  | .list xs => Except.ok xs
  | _ => Except.error PyErr.typeError

/-- A crude repr, only needed because `type(v1[0])(...)` in union applies
str() to a list when v1[0] is a string; that branch is unreachable for
the pipeline's data (escaping subtleties of CPython repr are elided). -/
def PyVal.pyRepr : PyVal → String
  | .none => "None"
  | .bool b => if b then ("True") else ("False")
  | .str s => "'" ++ s ++ "'"
  | .int n => toString n
  | .ty _ => "<type>"
  | .tuple _ => "<tuple>"
  | .list _ => "<list>"

/-- `type(v1[0])(elements)` in union: rebuild a value of the given class
from a list of element values (str() applied to a list yields its
repr). -/
def PyVal.rebuild (t : PyTag) (xs : List PyVal) : PyVal :=
  match t with
  | .tupleT => PyVal.tuple xs
  | .listT => PyVal.list xs
  | .strT => PyVal.str ("[" ++ String.intercalate (", ") (xs.map PyVal.pyRepr) ++ "]")
  | _ => PyVal.list xs

/-- Python zip(*rows): truncating transposition. -/
def pyZip (rows : List (List PyVal)) : List (List PyVal) :=
  match rows with
  | [] => []
  | r :: rs =>
    let n := rs.foldl (fun m l => Nat.min m l.length) r.length
    (List.range n).map (fun i => rows.map (fun l => l.getD i PyVal.none))

/-- CPython's default recursion limit, the implicit bound on the
recursion depth of function_parser_union.union. -/
def pyRecursionLimit : Nat := 1000

/-- function_parser_union.union (source lines 175-196), with the
recursion depth made explicit as fuel (exhaustion models Python's
RecursionError).  Filter out None values; none left yields None, one
left is returned; otherwise all must have the same runtime class
(assert), equal values collapse to the first, and sequence-valued
disagreements of equal length are unioned elementwise (a length
disagreement raises ValueError, a missing length slot raises
AssertionError). -/
def union (fuel : Nat) : List PyVal → Except PyErr PyVal :=
  match fuel with
  | 0 => fun _ => Except.error PyErr.recursionError
  | Nat.succ f => fun val =>
    match val.filter (fun x => !x.isNone) with
    | [] => Except.ok PyVal.none
    | [x] => Except.ok x
    | x :: xs =>
      if !(xs.all (fun y => y.tag == x.tag)) then Except.error PyErr.assertionError
      else if xs.all (fun y => PyVal.beq y x) then Except.ok x
      else if !((x :: xs).all (fun y => (PyVal.pyLen y).isSome)) then
        Except.error PyErr.assertionError
      else if !(xs.all (fun y => PyVal.pyLen y == PyVal.pyLen x)) then
        Except.error PyErr.valueError
      else
        match (pyZip ((x :: xs).map PyVal.seqElems)).mapM (union f) with
        | Except.error e => Except.error e
        | Except.ok res => Except.ok (PyVal.rebuild x.tag res)

/-- `isinstance(v, str) or v is None`. -/
def strOrNone : PyVal → Bool
  | .str _ => true
  | .none => true
  | _ => false

/-- The per-parameter clause of function_parser_base.check (source line
51): None, or a 4-tuple whose name and description slots are str-or-None
and whose optionality slot is None or a pair (is_optional, default) with
is_optional None or a bool, where a non-None default demands is_optional
is True (note: by Python operator precedence an is_optional of None
passes regardless of the default). -/
def paramOK (x : PyVal) : Bool :=
  x.isNone ||
  (match x with
   | .tuple [n, _t, d, o] =>
       strOrNone n && strOrNone d &&
       ((match o with
         | .tuple [b, dv] =>
             (match b with
              | .none => true
              | .bool bv => dv.isNone || bv
              | _ => false)
         | _ => false) || o.isNone)
   | _ => false)

/-- The single-return clause of check (source line 55): a 3-tuple whose
name and description slots are str-or-None. -/
def retTriple : PyVal → Bool
  | .tuple [n, _t, d] => strOrNone n && strOrNone d
  | _ => false

/-- The per-element clause of the multi-return check (source line 55):
None, or a tuple of length 3 or 4 whose slots 0 and 2 are
str-or-None. -/
def retElemOK : PyVal → Bool
  | .none => true
  | .tuple [n, _t, d] => strOrNone n && strOrNone d
  | .tuple [n, _t, d, _x] => strOrNone n && strOrNone d
  | _ => false

/-- Iterate ans[3] and apply retElemOK to each element, as the trailing
`all(...)` generator of source line 55 does (raises TypeError when
ans[3] is not iterable). -/
def retAll (v : PyVal) : Except PyErr Bool :=
  match PyVal.pyIter v with
  | Except.error e => Except.error e
  | Except.ok xs => Except.ok (xs.all retElemOK)

/-- `isinstance(v, list)`. -/
def PyVal.isList : PyVal → Bool
  | .list _ => true
  | _ => false

/-- function_parser_base.check (source lines 26-57): the shared format
contract on a parsed 4-tuple [doc_short, doc_long, doc_parameters,
doc_return].  Returns ans itself when the format is good. -/
def function_parser_base.check (ans : PyVal) : Except PyErr PyVal :=
  match ans.pyLen with
  | Option.none => Except.error PyErr.typeError
  | some n =>
    if !(n == 4) then Except.error PyErr.assertionError
    else
      match ans.getItem 0, ans.getItem 1, ans.getItem 2, ans.getItem 3 with
      | Except.ok a0, Except.ok a1, Except.ok a2, Except.ok a3 =>
        if !(strOrNone a0) then Except.error PyErr.assertionError
        else if !(strOrNone a1) then Except.error PyErr.assertionError
        else if !(a2.isList || a2.isNone) then Except.error PyErr.assertionError
        else if !a2.isNone &&
                !(match a2 with
                  | .list xs => xs.all paramOK
                  | _ => false) then Except.error PyErr.annotationFormatError
        else if PyVal.beq a3 emptyVal then Except.error PyErr.unAnnotatedError
        else if a3.isNone then Except.ok ans
        else if retTriple a3 then Except.ok ans
        else
          match retAll a3 with
          | Except.error e => Except.error e
          | Except.ok true => Except.ok ans
          | Except.ok false => Except.error PyErr.annotationFormatError
      | _, _, _, _ => Except.error PyErr.indexError

/-- One formal parameter as exposed by inspect.signature: its declared
name, its declared annotation (emptyVal when absent) and its default
value (emptyVal when absent). -/
structure SigParam where
  name : String
  ann : PyVal
  dflt : PyVal

/-- A docutils document node, as far as the docstring extractor consumes
the document model: sections carry their first name and their children;
definition lists hold items built from term and definition nodes.
(docutils is an external collaborator; a section produced by it always
carries at least one name, which is what `node['names'][0]` reads.) -/
inductive Node where
  | sec (name : String) (children : List Node)
  | paragraph (text : String)
  | title (text : String)
  | definition_list (children : List Node)
  | definition_list_item (children : List Node)
  | term (text : String)
  | definition (text : String)

def Node.tagname : Node → String
  | .sec _ _ => "section"
  | .paragraph _ => "paragraph"
  | .title _ => "title"
  | .definition_list _ => "definition_list"
  | .definition_list_item _ => "definition_list_item"
  | .term _ => "term"
  | .definition _ => "definition"

/-- `node['names'][0]` (only ever read on section nodes). -/
def Node.firstName : Node → String
  | .sec n _ => n
  | _ => ""

-- node.astext(): element nodes join their children's text with a blank
-- line (docutils' default child text separator), text nodes yield their
-- text.
mutual
def Node.astext : Node → String
  | .sec _ cs => Node.astextList cs
  | .paragraph t => t
  | .title t => t
  | .definition_list cs => Node.astextList cs
  | .definition_list_item cs => Node.astextList cs
  | .term t => t
  | .definition t => t
def Node.astextList : List Node → String
  | [] => ""
  | [x] => Node.astext x
  | x :: xs => Node.astext x ++ "\n\n" ++ Node.astextList xs
end

-- Python == on nodes, for list.remove.
mutual
def Node.beq : Node → Node → Bool
  | .sec a as, .sec b bs => a == b && Node.beqList as bs
  | .paragraph a, .paragraph b => a == b
  | .title a, .title b => a == b
  | .definition_list a, .definition_list b => Node.beqList a b
  | .definition_list_item a, .definition_list_item b => Node.beqList a b
  | .term a, .term b => a == b
  | .definition a, .definition b => a == b
  | _, _ => false
def Node.beqList : List Node → List Node → Bool
  | [], [] => true
  | a :: as, b :: bs => Node.beq a b && Node.beqList as bs
  | _, _ => false
end

/-- list.remove(x): drop the first element comparing equal to x (the
removal targets always come from the list itself, so the ValueError of
a missing element cannot occur). -/
def removeFirst (l : List Node) (x : Node) : List Node :=
  match l with
  | [] => []
  | y :: ys => if Node.beq y x then ys else y :: removeFirst ys x

/-- A Python function object, as far as the pipeline introspects it: its
dunder name, its docstring (None when undocumented), the docutils
document tree that _parse_rst produces from the dedented docstring (the
rst parser itself is an external collaborator), whether
inspect.signature succeeds on it, its ordered formal parameters, and
its declared return annotation (emptyVal when absent). -/
structure PyFunc where
  name : String
  doc : Option String
  docTree : List Node
  introspectable : Bool
  params : List SigParam
  returnAnn : PyVal

/-- function_parser_signature._parse (source lines 84-98): signature
introspection failure on an opaque builtin raises UnAnnotatedError; the
return annotation is kept as-is when it is None or already a
tuple/list, otherwise wrapped as (None, annotation, None); each
parameter becomes (name, annotation, None, (True, default)) when it
carries a default and (name, annotation, None, (False, None))
otherwise. -/
def function_parser_signature._parse (f : PyFunc) : Except PyErr PyVal :=
  if !f.introspectable then Except.error PyErr.unAnnotatedError
  else
    let t3 :=
      if f.returnAnn.isNone || f.returnAnn.tag == PyTag.tupleT || f.returnAnn.tag == PyTag.listT
      then f.returnAnn
      else PyVal.tuple [PyVal.none, f.returnAnn, PyVal.none]
    Except.ok (PyVal.list [PyVal.none, PyVal.none,
      PyVal.list (f.params.map (fun p =>
        PyVal.tuple [PyVal.str p.name, p.ann, PyVal.none,
          if !(PyVal.beq p.dflt emptyVal)
          then PyVal.tuple [PyVal.bool true, p.dflt]
          else PyVal.tuple [PyVal.bool false, PyVal.none]])),
      t3])

/-- function_parser_base.parse for the signature extractor: _parse, then
the shared format check. -/
def function_parser_signature.parse (f : PyFunc) : Except PyErr PyVal :=
  match function_parser_signature._parse f with
  | Except.error e => Except.error e
  | Except.ok a => function_parser_base.check a

/-- str.strip(): drop leading and trailing whitespace.  Modelled over
the character list so that it evaluates definitionally; Python also
strips vertical tab and form feed, which do not occur in the data. -/
def pyStrip (s : String) : String :=
  String.mk ((((s.toList.dropWhile Char.isWhitespace).reverse).dropWhile Char.isWhitespace).reverse)

/-- str.split(sep) for a one-character separator, over character
lists. -/
def splitOnChar (c : Char) : List Char → List (List Char)
  | [] => [[]]
  | x :: xs =>
      match splitOnChar c xs with
      | [] => if x == c then [[], []] else [[x]]
      | h :: t => if x == c then [] :: h :: t else (x :: h) :: t

/-- One definition-list item of a Parameters section (source lines
158-161): both a term child and a definition child must be present
(assertion), a dict keyed by tagname keeps the last child of each tag,
and the term and definition texts are extracted and stripped. -/
def itemTermDef (x : Node) : Except PyErr (String × String) :=
  match x with
  | .definition_list_item cs =>
      if !((cs.any (fun y => y.tagname == "term")) && (cs.any (fun y => y.tagname == "definition")))
      then Except.error PyErr.assertionError
      else
        match (cs.filter (fun y => y.tagname == "term")).getLast?,
              (cs.filter (fun y => y.tagname == "definition")).getLast? with
        | some tn, some dn => Except.ok (pyStrip tn.astext, pyStrip dn.astext)
        | _, _ => Except.error PyErr.assertionError
  | _ => Except.error PyErr.assertionError

/-- One parameter entry from a (term, definition) pair (source lines
162-164): the term must contain exactly one colon separating name and
type (assertion); an empty type text becomes None. -/
def entryOfTermDef (td : String × String) : Except PyErr PyVal :=
  match splitOnChar (Char.ofNat 58) td.1.toList with
  | [nm, tp] =>
      Except.ok (PyVal.tuple [PyVal.str (pyStrip (String.mk nm)),
        (if !((pyStrip (String.mk tp)).length == 0)
         then PyVal.str (pyStrip (String.mk tp)) else PyVal.none),
        PyVal.str td.2, PyVal.none])
  | _ => Except.error PyErr.assertionError

/-- The body of the parameters-section branch of the extraction loop
(source lines 153-165): the section must consist of exactly a title
followed by a definition list, every item of which is a
definition_list_item with a term and a definition; items become
(name, type_text_or_None, description, None) tuples. -/
def parseParamsSection (s : Node) : Except PyErr PyVal :=
  match s with
  | .sec _ children =>
      if !(children.map Node.tagname == ["title", "definition_list"]) then
        Except.error PyErr.assertionError
      else
        match children with
        | [_, .definition_list items] =>
            if !(items.all (fun x => x.tagname == "definition_list_item")) then
              Except.error PyErr.assertionError
            else
              match items.mapM itemTermDef with
              | Except.error e => Except.error e
              | Except.ok tds =>
                  match tds.mapM entryOfTermDef with
                  | Except.error e => Except.error e
                  | Except.ok entries => Except.ok (PyVal.list entries)
        | _ => Except.error PyErr.assertionError
  | _ => Except.error PyErr.assertionError

/-- `if ans[xi] is not None and len(ans[xi])==0: ans[xi]=None` (source
lines 143-145), applied to a short/long description slot. -/
def normalizeEmpty (v : PyVal) : PyVal :=
  match v with
  | .str s => if s.length == 0 then PyVal.none else PyVal.str s
  | v => v

/-- function_parser_docstring_numpy._parse on the parsed document tree
(source lines 121-166): collect the parameters and results sections
(each at most once, else assertion failure), drop them and the ignored
yields/receives sections from the document, take the first remaining
paragraph as the short description, the remaining text as the long
description (empty text becoming None), parse the parameters section
into (name, type, description, None) tuples, and raise
NotImplementedError whenever a results section is present.  The return
slot ans[3] is never populated. -/
def function_parser_docstring_numpy.parseTree (d0 : List Node) : Except PyErr PyVal :=
  let secsParams := d0.filter (fun y => y.tagname == "section" && y.firstName == "parameters")
  let secsResults := d0.filter (fun y => y.tagname == "section" && y.firstName == "results")
  if secsParams.length > 1 || secsResults.length > 1 then Except.error PyErr.assertionError
  else
    let present := (if !secsParams.isEmpty then ["parameters"] else []) ++
                   (if !secsResults.isEmpty then ["results"] else [])
    let toRemove := d0.filter (fun x =>
      x.tagname == "section" && (present ++ ["yields", "receives"]).contains x.firstName)
    let d1 := toRemove.foldl removeFirst d0
    let paras := d1.filter (fun x => x.tagname == "paragraph")
    let ans0 : PyVal := match paras with
      | [] => PyVal.none
      | p :: _ => PyVal.str (pyStrip p.astext)
    let d2 := match paras with
      | [] => d1
      | p :: _ => removeFirst d1 p
    let ans1 := normalizeEmpty (PyVal.str (pyStrip (Node.astextList d2)))
    match (match secsParams with
           | [] => Except.ok PyVal.none
           | s :: _ => parseParamsSection s) with
    | Except.error e => Except.error e
    | Except.ok ans2 =>
        if !secsResults.isEmpty then Except.error PyErr.notImplementedError
        else Except.ok (PyVal.list [normalizeEmpty ans0, ans1, ans2, PyVal.none])

/-- function_parser_docstring_numpy._parse (source lines 116-166):
dedent(func.__doc__) raises on an absent docstring: on the CPython
versions this code targets (up to 3.12), textwrap.dedent runs a regex
substitution over the text before any attribute access, so dedent(None)
raises TypeError (expected string or bytes-like object); otherwise the
docstring is parsed by docutils (external) and the document tree is
processed. -/
def function_parser_docstring_numpy._parse (f : PyFunc) : Except PyErr PyVal :=
  match f.doc with
  | Option.none => Except.error PyErr.typeError
  | some _ => function_parser_docstring_numpy.parseTree f.docTree

/-- function_parser_base.parse for the docstring extractor. -/
def function_parser_docstring_numpy.parse (f : PyFunc) : Except PyErr PyVal :=
  match function_parser_docstring_numpy._parse f with
  | Except.error e => Except.error e
  | Except.ok a => function_parser_base.check a

/-- function_parser_union._parse for the pipeline that docstringrunner
instantiates (source lines 197-199 with the parser list of line 353):
run the signature extractor's parse, then the docstring extractor's
parse, and union the two results. -/
def function_parser_union._parse (f : PyFunc) : Except PyErr PyVal :=
  match function_parser_signature.parse f with
  | Except.error e => Except.error e
  | Except.ok a1 =>
      match function_parser_docstring_numpy.parse f with
      | Except.error e => Except.error e
      | Except.ok a2 => union pyRecursionLimit [a1, a2]

/-- function_parser_base.parse for the union parser: the post-union
format check runs on the merged result. -/
def function_parser_union.parse (f : PyFunc) : Except PyErr PyVal :=
  match function_parser_union._parse f with
  | Except.error e => Except.error e
  | Except.ok a => function_parser_base.check a

/-- totype (source lines 259-270): a plain class is returned unchanged;
a typing.Union whose arguments are exactly two with exactly one equal to
type(None) resolves to the other argument; anything else raises
TypeError. -/
def totype (t : TyExpr) : Except PyErr TyExpr :=
  match t with
  | .plain n => Except.ok (TyExpr.plain n)
  | .tunion args =>
      if args.length == 2 && args.countP (fun x => TyExpr.beq x nonetype) == 1 then
        match args.filter (fun x => !(TyExpr.beq x nonetype)) with
        | y :: _ => Except.ok y
        | [] => Except.error PyErr.indexError
      else Except.error PyErr.typeError
  | .generic _ _ => Except.error PyErr.typeError

/-- totype applied to an arbitrary runtime value, as docstringparser
does with the type slot of a parameter tuple: only a type object can
succeed; on any other value isinstance(t, type) is false and
typing.get_origin yields no Union, so TypeError is raised. -/
def totypeV (v : PyVal) : Except PyErr TyExpr :=
  match v with
  | .ty t => totype t
  | _ => Except.error PyErr.typeError

/-- One argparse argument declaration as emitted by docstringparser
(source lines 332-342). -/
inductive ArgSpec where
  | store_true (name : String) (help : PyVal) (dflt : PyVal)
  | store_flag (name : String) (ty : TyExpr) (help : PyVal) (dflt : PyVal)
  | positional (name : String) (ty : TyExpr) (help : PyVal)

/-- The per-parameter body of docstringparser's argument loop (source
lines 332-342).  A truthy optionality flag makes the parameter a
keyword argument: a bool-typed one becomes add_argument of a
zero-argument presence flag with default=False and action store_true
(regardless of the recorded default), any other resolved type becomes a
one-value typed flag defaulting to the recorded default; a falsy
optionality flag makes it a required positional with the resolved
type.  Reading xj[3][0] of a malformed tuple, and prefixing a non-str
name with the dashes, raise TypeError as in Python. -/
def buildArgument (xj : PyVal) : Except PyErr ArgSpec :=
  match xj.getItem 3 with
  | Except.error e => Except.error e
  | Except.ok o =>
      match o.getItem 0 with
      | Except.error e => Except.error e
      | Except.ok b =>
          if b.truthy then
            match xj.getItem 1 with
            | Except.error e => Except.error e
            | Except.ok tslot =>
                match totypeV tslot with
                | Except.error e => Except.error e
                | Except.ok ttype =>
                    match xj.getItem 0 with
                    | Except.error e => Except.error e
                    | Except.ok (PyVal.str nm) =>
                        if TyExpr.beq ttype (TyExpr.plain ("bool")) then
                          match xj.getItem 2 with
                          | Except.error e => Except.error e
                          | Except.ok h =>
                              Except.ok (ArgSpec.store_true nm h (PyVal.bool false))
                        else
                          match xj.getItem 2, o.getItem 1 with
                          | Except.ok h, Except.ok dv =>
                              Except.ok (ArgSpec.store_flag nm ttype h dv)
                          | Except.error e, _ => Except.error e
                          | _, Except.error e => Except.error e
                    | Except.ok _ => Except.error PyErr.typeError
          else
            match xj.getItem 0 with
            | Except.error e => Except.error e
            | Except.ok (PyVal.str nm) =>
                match xj.getItem 1 with
                | Except.error e => Except.error e
                | Except.ok tslot =>
                    match totypeV tslot with
                    | Except.error e => Except.error e
                    | Except.ok ttype =>
                        match xj.getItem 2 with
                        | Except.error e => Except.error e
                        | Except.ok h => Except.ok (ArgSpec.positional nm ttype h)
            | Except.ok _ => Except.error PyErr.typeError

/-- An invocable function object: called with a positional argument list
followed by a keyword mapping, it returns a value.  Callables are
opaque capabilities; only their calling convention is modelled. -/
def PyCallable : Type := List PyVal → List (String × PyVal) → PyVal

/-- The argparse namespace handed to run_args: one attribute per
declared argument name, plus the hidden _fullname marker and _func
back-reference installed by set_defaults. -/
structure ParsedArgs where
  attrs : List (String × PyVal)
  fullname : String
  func : PyCallable

/-- getattr(args, n): AttributeError when the namespace has no such
attribute. -/
def ParsedArgs.getattr (args : ParsedArgs) (n : String) : Except PyErr PyVal :=
  match args.attrs.lookup n with
  | some v => Except.ok v
  | Option.none => Except.error PyErr.attributeError

/-- The required-argument comprehension of run_args (source line 347):
`[getattr(args,x[0]) for x in params if not x[3][0]]`; per element the
filter condition x[3][0] is evaluated first, then the attribute read. -/
def requiredVals (args : ParsedArgs) : List PyVal → Except PyErr (List PyVal)
  | [] => Except.ok []
  | x :: rest =>
      match x.getItem 3 with
      | Except.error e => Except.error e
      | Except.ok o =>
          match o.getItem 0 with
          | Except.error e => Except.error e
          | Except.ok b =>
              if !b.truthy then
                match x.getItem 0 with
                | Except.error e => Except.error e
                | Except.ok (PyVal.str nm) =>
                    match args.getattr nm with
                    | Except.error e => Except.error e
                    | Except.ok v =>
                        match requiredVals args rest with
                        | Except.error e => Except.error e
                        | Except.ok vs => Except.ok (v :: vs)
                | Except.ok _ => Except.error PyErr.typeError
              else requiredVals args rest

/-- The keyword-argument comprehension of run_args (source line 348):
`{x[0]:getattr(args,x[0]) for x in params if x[3][0]}`. -/
def keywordVals (args : ParsedArgs) : List PyVal → Except PyErr (List (String × PyVal))
  | [] => Except.ok []
  | x :: rest =>
      match x.getItem 3 with
      | Except.error e => Except.error e
      | Except.ok o =>
          match o.getItem 0 with
          | Except.error e => Except.error e
          | Except.ok b =>
              if b.truthy then
                match x.getItem 0 with
                | Except.error e => Except.error e
                | Except.ok (PyVal.str nm) =>
                    match args.getattr nm with
                    | Except.error e => Except.error e
                    | Except.ok v =>
                        match keywordVals args rest with
                        | Except.error e => Except.error e
                        | Except.ok kvs => Except.ok ((nm, v) :: kvs)
                | Except.ok _ => Except.error PyErr.typeError
              else keywordVals args rest

/-- run_args (source lines 346-349): look up the chosen function's
record by args._fullname, read its merged parameter metadata
(funcs[...][1][2]), split the parameters into required ones (read
positionally in declaration order) and optional ones (read by name),
and call args._func with exactly those positional and keyword
arguments, returning the call's result unmodified. -/
def run_args (funcs : List (String × (PyCallable × PyVal))) (args : ParsedArgs) :
    Except PyErr PyVal :=
  match funcs.lookup args.fullname with
  | Option.none => Except.error PyErr.keyError
  | some (_f, meta) =>
      match meta.getItem 2 with
      | Except.error e => Except.error e
      | Except.ok params =>
          match params.pyIter with
          | Except.error e => Except.error e
          | Except.ok plist =>
              match requiredVals args plist with
              | Except.error e => Except.error e
              | Except.ok a =>
                  match keywordVals args plist with
                  | Except.error e => Except.error e
                  | Except.ok ka => Except.ok (args.func a ka)

/-- The per-function parsing step of get_functions_raw (source lines
243-251): with an empty errskip every parse failure propagates; with a
non-empty errskip a function whose parse raises an exception matching
one of the listed classes is silently omitted from the result. -/
def get_functions_f (parserParse : PyFunc → Except PyErr PyVal)
    (fs : List (String × PyFunc)) (errskip : List PyErrClass) :
    Except PyErr (List (String × PyVal)) :=
  match fs with
  | [] => Except.ok []
  | (n, f) :: rest =>
      match parserParse f with
      | Except.ok v =>
          match get_functions_f parserParse rest errskip with
          | Except.error e => Except.error e
          | Except.ok tl => Except.ok ((n, v) :: tl)
      | Except.error e =>
          if !errskip.isEmpty && errskip.any (fun c => e.isInstanceOf c) then
            get_functions_f parserParse rest errskip
          else Except.error e

/-- The description, in the words of the specification, of one parameter
entry produced by the signature extractor: (declared name, declared
annotation verbatim, None, (True, default) if the parameter carries a
default value, else (False, None)). -/
def specSigParamEntry (p : SigParam) : PyVal :=
  PyVal.tuple [PyVal.str p.name, p.ann, PyVal.none,
    if PyVal.beq p.dflt emptyVal then PyVal.tuple [PyVal.bool false, PyVal.none]
    else PyVal.tuple [PyVal.bool true, p.dflt]]

/-- The description, in the words of the specification, of run_args'
positional arguments: the attribute values of the parameters whose
optionality flag is false, in declaration order. -/
def specPositionalArgs (args : ParsedArgs) (plist : List PyVal) : List PyVal :=
  plist.filterMap (fun x =>
    match x with
    | PyVal.tuple [PyVal.str n, _t, _d, PyVal.tuple [PyVal.bool false, _dv]] =>
        (args.getattr n).toOption
    | _ => Option.none)

/-- The description, in the words of the specification, of run_args'
keyword arguments: the parameters whose optionality flag is true, read
by name into a name-to-value mapping. -/
def specKeywordArgs (args : ParsedArgs) (plist : List PyVal) : List (String × PyVal) :=
  plist.filterMap (fun x =>
    match x with
    | PyVal.tuple [PyVal.str n, _t, _d, PyVal.tuple [PyVal.bool true, _dv]] =>
        (args.getattr n).toOption.map (fun v => (n, v))
    | _ => Option.none)

/-- A parameter entry in the shape run_args relies on: a 4-tuple with a
string name, a boolean optionality flag, and an attribute of that name
present on the parsed namespace. -/
def WFParam (args : ParsedArgs) (x : PyVal) : Prop :=
  ∃ n t d b dv v, x = PyVal.tuple [PyVal.str n, t, d, PyVal.tuple [PyVal.bool b, dv]] ∧
    args.getattr n = Except.ok v

/-- A documented function whose return is entirely unannotated in every
extractor: inspect reports no return annotation (inspect._empty) and
the docstring has no Results section.  Concretely: def f(x: int) with
docstring "Do a thing.". -/
def unannotatedReturnFunc : PyFunc := {
  name := "f"
  doc := some ("Do a thing.")
  docTree := [Node.paragraph ("Do a thing.")]
  introspectable := true
  params := [⟨"x", PyVal.ty (TyExpr.plain ("int")), emptyVal⟩]
  returnAnn := emptyVal }

/-- A function whose docstring contains a Results section (and a
Parameters section). -/
def resultsSectionFunc : PyFunc := {
  name := "g"
  doc := some ("Sum.")
  docTree := [Node.paragraph ("Sum."),
    Node.sec ("parameters") [Node.title ("Parameters"),
      Node.definition_list [Node.definition_list_item
        [Node.term ("x: int"), Node.definition ("the input")]]],
    Node.sec ("results") [Node.title ("Results"),
      Node.definition_list [Node.definition_list_item
        [Node.term ("y: int"), Node.definition ("the output")]]]]
  introspectable := true
  params := [⟨"x", PyVal.ty (TyExpr.plain ("int")), emptyVal⟩]
  returnAnn := PyVal.ty (TyExpr.plain ("int")) }

/-- A fully signature-annotated function without a docstring
(func.__doc__ is None). -/
def undocumentedFunc : PyFunc := {
  name := "h"
  doc := Option.none
  docTree := []
  introspectable := true
  params := [⟨"x", PyVal.ty (TyExpr.plain ("int")), emptyVal⟩]
  returnAnn := PyVal.ty (TyExpr.plain ("int")) }

/-- The signature extractor's output for undocumentedFunc. -/
def undocumentedFuncSigMeta : PyVal :=
  PyVal.list [PyVal.none, PyVal.none,
    PyVal.list [PyVal.tuple [PyVal.str ("x"), PyVal.ty (TyExpr.plain ("int")), PyVal.none,
      PyVal.tuple [PyVal.bool false, PyVal.none]]],
    PyVal.tuple [PyVal.none, PyVal.ty (TyExpr.plain ("int")), PyVal.none]]

/-- A sample callable for exercising run_args: it records its positional
and keyword arguments in its result. -/
def exCallable : PyCallable :=
  fun a ka => PyVal.tuple [PyVal.list a, PyVal.list (ka.map (fun p => PyVal.tuple [PyVal.str p.1, p.2]))]

/-- Merged parameter metadata of a function with one required parameter
x and one optional parameter y. -/
def exParamList : List PyVal :=
  [PyVal.tuple [PyVal.str ("x"), PyVal.ty (TyExpr.plain ("int")), PyVal.none,
     PyVal.tuple [PyVal.bool false, PyVal.none]],
   PyVal.tuple [PyVal.str ("y"), PyVal.ty (TyExpr.plain ("int")), PyVal.none,
     PyVal.tuple [PyVal.bool true, PyVal.int 3]]]

/-- The function-record mapping entry for that function. -/
def exMeta : PyVal :=
  PyVal.list [PyVal.none, PyVal.none, PyVal.list exParamList, PyVal.none]

def exFuncs : List (String × (PyCallable × PyVal)) := [("m.f", (exCallable, exMeta))]

/-- A parsed namespace for dispatching that function. -/
def exArgs : ParsedArgs := {
  attrs := [("x", PyVal.int 1), ("y", PyVal.int 2)]
  fullname := "m.f"
  func := exCallable }

-- Reflexivity and soundness of the embedded Python equalities.
mutual
theorem TyExpr.beq_refl : ∀ t : TyExpr, TyExpr.beq t t = true
  | .plain a => by simp [TyExpr.beq]
  | .tunion args => by simp [TyExpr.beq, TyExpr.beqList_refl args]
  | .generic n args => by simp [TyExpr.beq, TyExpr.beqList_refl args]
theorem TyExpr.beqList_refl : ∀ ts : List TyExpr, TyExpr.beqList ts ts = true
  | [] => rfl
  | t :: ts => by simp [TyExpr.beqList, TyExpr.beq_refl t, TyExpr.beqList_refl ts]
end

mutual
theorem TyExpr.eq_of_beq : ∀ {a b : TyExpr}, TyExpr.beq a b = true → a = b
  | .plain x, .plain y, h => by simp [TyExpr.beq] at h; rw [h]
  | .plain _, .tunion _, h => by simp [TyExpr.beq] at h
  | .plain _, .generic _ _, h => by simp [TyExpr.beq] at h
  | .tunion _, .plain _, h => by simp [TyExpr.beq] at h
  | .tunion a, .tunion b, h => by
      simp only [TyExpr.beq] at h
      rw [TyExpr.eqList_of_beqList h]
  | .tunion _, .generic _ _, h => by simp [TyExpr.beq] at h
  | .generic _ _, .plain _, h => by simp [TyExpr.beq] at h
  | .generic _ _, .tunion _, h => by simp [TyExpr.beq] at h
  | .generic x xs, .generic y ys, h => by
      simp only [TyExpr.beq, Bool.and_eq_true, beq_iff_eq] at h
      rw [h.1, TyExpr.eqList_of_beqList h.2]
theorem TyExpr.eqList_of_beqList : ∀ {a b : List TyExpr}, TyExpr.beqList a b = true → a = b
  | [], [], _ => rfl
  | [], _ :: _, h => by simp [TyExpr.beqList] at h
  | _ :: _, [], h => by simp [TyExpr.beqList] at h
  | x :: xs, y :: ys, h => by
      simp only [TyExpr.beqList, Bool.and_eq_true] at h
      rw [TyExpr.eq_of_beq h.1, TyExpr.eqList_of_beqList h.2]
end

mutual
theorem PyVal.beq_self : ∀ v : PyVal, PyVal.beq v v = true
  | .none => rfl
  | .bool b => by simp [PyVal.beq]
  | .str s => by simp [PyVal.beq]
  | .int n => by simp [PyVal.beq]
  | .ty t => by simp [PyVal.beq, TyExpr.beq_refl t]
  | .tuple xs => by simp [PyVal.beq, PyVal.beqList_self xs]
  | .list xs => by simp [PyVal.beq, PyVal.beqList_self xs]
theorem PyVal.beqList_self : ∀ vs : List PyVal, PyVal.beqList vs vs = true
  | [] => rfl
  | v :: vs => by simp [PyVal.beqList, PyVal.beq_self v, PyVal.beqList_self vs]
end

theorem PyVal.beqList_length : ∀ as bs : List PyVal,
    PyVal.beqList as bs = true → as.length = bs.length := by
  intro as
  induction as with
  | nil =>
      intro bs h
      cases bs with
      | nil => rfl
      | cons b bs => simp [PyVal.beqList] at h
  | cons a as ih =>
      intro bs h
      cases bs with
      | nil => simp [PyVal.beqList] at h
      | cons b bs =>
          simp only [PyVal.beqList, Bool.and_eq_true] at h
          simp [ih bs h.2]

theorem PyVal.pyLen_eq_of_beq : ∀ {a b : PyVal}, PyVal.beq a b = true → a.pyLen = b.pyLen := by
  intro a b h
  cases a <;> cases b <;> simp_all [PyVal.beq, PyVal.pyLen]
  case tuple.tuple as bs => exact PyVal.beqList_length as bs h
  case list.list as bs => exact PyVal.beqList_length as bs h

-- The three disagreement branches of union (for claim C2).
theorem union_tag_conflict (n : Nat) (a b : PyVal) (ha : a.isNone = false)
    (hb : b.isNone = false) (ht : a.tag ≠ b.tag) :
    union (n+1) [a, b] = Except.error PyErr.assertionError := by
  have hba : (b.tag == a.tag) = false := by
    simp only [beq_eq_false_iff_ne]
    exact fun h => ht h.symm
  simp [union, List.filter, ha, hb, hba]

theorem union_scalar_conflict (n : Nat) (a b : PyVal) (ha : a.isNone = false)
    (hb : b.isNone = false) (ht : a.tag = b.tag) (hne : PyVal.beq b a = false)
    (hl : a.pyLen = Option.none) :
    union (n+1) [a, b] = Except.error PyErr.assertionError := by
  simp [union, List.filter, ha, hb, ht, hne, hl]

theorem union_length_conflict (n : Nat) (a b : PyVal) (ha : a.isNone = false)
    (hb : b.isNone = false) (ht : a.tag = b.tag) (hsa : (a.pyLen).isSome = true)
    (hsb : (b.pyLen).isSome = true) (hlen : a.pyLen ≠ b.pyLen) :
    union (n+1) [a, b] = Except.error PyErr.valueError := by
  have hne : PyVal.beq b a = false := by
    cases h : PyVal.beq b a
    · rfl
    · exact absurd (PyVal.pyLen_eq_of_beq h).symm hlen
  have hlen2 : (b.pyLen == a.pyLen) = false := by
    simp only [beq_eq_false_iff_ne]
    exact fun h => hlen h.symm
  simp [union, List.filter, ha, hb, ht, hne, hsa, hsb, hlen2]

-- run_args' two comprehensions, for claim C7.
theorem requiredVals_eq (args : ParsedArgs) : ∀ plist : List PyVal,
    (∀ x ∈ plist, WFParam args x) →
    requiredVals args plist = Except.ok (specPositionalArgs args plist) := by
  intro plist
  induction plist with
  | nil => intro _; rfl
  | cons x rest ih =>
      intro h
      obtain ⟨n, t, d, b, dv, v, hx, hget⟩ := h x (List.mem_cons_self x rest)
      have hrest := ih (fun y hy => h y (List.mem_cons_of_mem x hy))
      subst hx
      cases b <;>
        simp [requiredVals, specPositionalArgs, PyVal.getItem, PyVal.truthy, hget, hrest,
          List.filterMap_cons, Except.toOption]

theorem keywordVals_eq (args : ParsedArgs) : ∀ plist : List PyVal,
    (∀ x ∈ plist, WFParam args x) →
    keywordVals args plist = Except.ok (specKeywordArgs args plist) := by
  intro plist
  induction plist with
  | nil => intro _; rfl
  | cons x rest ih =>
      intro h
      obtain ⟨n, t, d, b, dv, v, hx, hget⟩ := h x (List.mem_cons_self x rest)
      have hrest := ih (fun y hy => h y (List.mem_cons_of_mem x hy))
      subst hx
      cases b <;>
        simp [keywordVals, specKeywordArgs, PyVal.getItem, PyVal.truthy, hget, hrest,
          List.filterMap_cons, Except.toOption]

/-- Claim C1 (evaluation of the code at the failing input).  The claim
says the post-union format check fails with UnAnnotatedError whenever no
extractor produced any return-type information.  In the code, the
signature extractor wraps the inspect._empty return annotation into the
tuple (None, inspect._empty, None) (source line 96), so the check's
comparison `ans[3]==_empty` (source line 53) is false and the union
parser's post-union parse of a documented function with an entirely
unannotated return SUCCEEDS instead of raising UnAnnotatedError. -/
theorem c1_unannotated_output_passes_postunion_check :
    function_parser_union.parse unannotatedReturnFunc =
      Except.ok (PyVal.list [PyVal.str ("Do a thing."), PyVal.none,
        PyVal.list [PyVal.tuple [PyVal.str ("x"), PyVal.ty (TyExpr.plain ("int")), PyVal.none,
          PyVal.tuple [PyVal.bool false, PyVal.none]]],
        PyVal.tuple [PyVal.none, emptyVal, PyVal.none]]) := rfl

/-- Claim C2, counterexample to the claim as stated.  Two unequal
scalar leaves of matching type (the booleans True and False) make union
raise AssertionError, not a ValueError as the claim asserts. -/
theorem c2_scalar_conflict_is_not_a_value_error :
    union 2 [PyVal.bool true, PyVal.bool false] = Except.error PyErr.assertionError ∧
    union 2 [PyVal.bool true, PyVal.bool false] ≠ Except.error PyErr.valueError := by
  have h1 : union 2 [PyVal.bool true, PyVal.bool false] =
      Except.error PyErr.assertionError := rfl
  refine ⟨h1, ?_⟩
  rw [h1]
  simp

/-- Claim C2, amended.  For every pair of non-absent metadata values
that disagree, union raises an error and never returns a result that
prefers one extractor's value: values of different runtime types raise
AssertionError, unequal non-sequence scalar leaves raise
AssertionError, and same-type sequence-like values of different lengths
raise ValueError. -/
theorem c2_union_conflict_error_kinds :
    (∀ (n : Nat) (a b : PyVal), a.isNone = false → b.isNone = false → a.tag ≠ b.tag →
      union (n+1) [a, b] = Except.error PyErr.assertionError) ∧
    (∀ (n : Nat) (a b : PyVal), a.isNone = false → b.isNone = false → a.tag = b.tag →
      PyVal.beq b a = false → a.pyLen = Option.none →
      union (n+1) [a, b] = Except.error PyErr.assertionError) ∧
    (∀ (n : Nat) (a b : PyVal), a.isNone = false → b.isNone = false → a.tag = b.tag →
      (a.pyLen).isSome = true → (b.pyLen).isSome = true → a.pyLen ≠ b.pyLen →
      union (n+1) [a, b] = Except.error PyErr.valueError) :=
  ⟨union_tag_conflict, union_scalar_conflict, union_length_conflict⟩

theorem c2_union_conflict_error_kinds_witness :
    union 1 [PyVal.bool true, PyVal.str ("x")] = Except.error PyErr.assertionError ∧
    union 1 [PyVal.int 1, PyVal.int 2] = Except.error PyErr.assertionError ∧
    union 1 [PyVal.list [], PyVal.list [PyVal.int 1]] = Except.error PyErr.valueError :=
  ⟨c2_union_conflict_error_kinds.1 0 (PyVal.bool true) (PyVal.str ("x")) rfl rfl (by decide),
   c2_union_conflict_error_kinds.2.1 0 (PyVal.int 1) (PyVal.int 2) rfl rfl rfl rfl rfl,
   c2_union_conflict_error_kinds.2.2 0 (PyVal.list []) (PyVal.list [PyVal.int 1]) rfl rfl rfl
     rfl rfl (by decide)⟩

/-- Claim C3.  Union is idempotent and commutative for
pairwise-compatible inputs: for every metadata value A, union of
[A, None], of [None, A] and of [A, A] yields A. -/
theorem c3_union_idempotent_commutative : ∀ (n : Nat) (A : PyVal),
    union (n+1) [A, PyVal.none] = Except.ok A ∧
    union (n+1) [PyVal.none, A] = Except.ok A ∧
    union (n+1) [A, A] = Except.ok A := by
  intro n A
  refine ⟨?_, ?_, ?_⟩ <;>
    cases A <;>
      simp [union, PyVal.isNone, PyVal.beq_self, List.filter]

/-- Claim C4.  For every function with an introspectable signature, the
signature extractor's _parse returns short_description None,
long_description None, and one parameter entry per declared parameter
in declaration order, each of the form (declared name, declared
annotation verbatim, None, (True, default) if the parameter carries a
default value, else (False, None)). -/
theorem c4_signature_extractor_metadata : ∀ f : PyFunc, f.introspectable = true →
    ∃ r, function_parser_signature._parse f =
      Except.ok (PyVal.list [PyVal.none, PyVal.none,
        PyVal.list (f.params.map specSigParamEntry), r]) := by
  intro f hf
  refine ⟨if f.returnAnn.isNone || f.returnAnn.tag == PyTag.tupleT || f.returnAnn.tag == PyTag.listT
          then f.returnAnn else PyVal.tuple [PyVal.none, f.returnAnn, PyVal.none], ?_⟩
  simp only [function_parser_signature._parse, hf, Bool.not_true, Bool.false_eq_true,
    if_false]
  have hmap : f.params.map (fun p =>
      PyVal.tuple [PyVal.str p.name, p.ann, PyVal.none,
        if !(PyVal.beq p.dflt emptyVal) then PyVal.tuple [PyVal.bool true, p.dflt]
        else PyVal.tuple [PyVal.bool false, PyVal.none]]) = f.params.map specSigParamEntry := by
    refine List.map_congr_left ?_
    intro p _
    cases hb : PyVal.beq p.dflt emptyVal <;> simp [specSigParamEntry, hb]
  rw [hmap]

theorem c4_signature_extractor_metadata_witness :
    ∃ r, function_parser_signature._parse unannotatedReturnFunc =
      Except.ok (PyVal.list [PyVal.none, PyVal.none,
        PyVal.list (unannotatedReturnFunc.params.map specSigParamEntry), r]) :=
  c4_signature_extractor_metadata unannotatedReturnFunc rfl

/-- Claim C5.  Type resolution (totype) returns a plain class unchanged;
a two-armed union of a type T plus the null type (in either order)
resolves to T; a union of any other shape, and any other
compound/generic type, fails with TypeError. -/
theorem c5_totype_optional_unwrap :
    (∀ nm : String, totype (TyExpr.plain nm) = Except.ok (TyExpr.plain nm)) ∧
    (∀ T : TyExpr, TyExpr.beq T nonetype = false →
      totype (TyExpr.tunion [T, nonetype]) = Except.ok T ∧
      totype (TyExpr.tunion [nonetype, T]) = Except.ok T) ∧
    (∀ (nm : String) (args : List TyExpr),
      totype (TyExpr.generic nm args) = Except.error PyErr.typeError) ∧
    (∀ args : List TyExpr,
      (∀ T : TyExpr, TyExpr.beq T nonetype = false → args ≠ [T, nonetype] ∧ args ≠ [nonetype, T]) →
      totype (TyExpr.tunion args) = Except.error PyErr.typeError) := by
  refine ⟨fun nm => rfl, ?_, fun nm args => rfl, ?_⟩
  · intro T hT
    constructor <;> simp [totype, hT, TyExpr.beq_refl]
  · intro args h
    by_cases hg : (args.length == 2 && args.countP (fun x => TyExpr.beq x nonetype) == 1) = true
    · exfalso
      simp only [Bool.and_eq_true, beq_iff_eq] at hg
      obtain ⟨hlen, hcnt⟩ := hg
      match args, hlen with
      | [x, y], _ =>
        simp only [List.countP_cons, List.countP_nil] at hcnt
        cases hx : TyExpr.beq x nonetype <;> cases hy : TyExpr.beq y nonetype <;>
          simp [hx, hy] at hcnt
        · exact (h x hx).1 (by rw [TyExpr.eq_of_beq hy])
        · exact (h y hy).2 (by rw [TyExpr.eq_of_beq hx])
    · simp only [Bool.not_eq_true] at hg
      simp [totype, hg]

theorem c5_totype_optional_unwrap_witness :
    totype (TyExpr.tunion [TyExpr.plain ("int"), nonetype]) = Except.ok (TyExpr.plain ("int")) :=
  (c5_totype_optional_unwrap.2.1 (TyExpr.plain ("int")) (by decide)).1

/-- Claim C6.  In the command-tree builder's per-parameter loop, a
parameter with true optionality whose type resolves to bool becomes a
zero-argument presence flag defaulting to false regardless of the
recorded default; one whose type resolves to any other type becomes a
one-value typed flag defaulting to the recorded default; a parameter
with false optionality becomes a required positional of the resolved
type. -/
theorem c6_command_tree_argument_declaration : ∀ (nm : String) (t : TyExpr) (h d : PyVal)
    (T : TyExpr), totype t = Except.ok T →
    ((T = TyExpr.plain ("bool") →
       buildArgument (PyVal.tuple [PyVal.str nm, PyVal.ty t, h,
           PyVal.tuple [PyVal.bool true, d]]) =
         Except.ok (ArgSpec.store_true nm h (PyVal.bool false))) ∧
     (T ≠ TyExpr.plain ("bool") →
       buildArgument (PyVal.tuple [PyVal.str nm, PyVal.ty t, h,
           PyVal.tuple [PyVal.bool true, d]]) =
         Except.ok (ArgSpec.store_flag nm T h d)) ∧
     buildArgument (PyVal.tuple [PyVal.str nm, PyVal.ty t, h,
         PyVal.tuple [PyVal.bool false, PyVal.none]]) =
       Except.ok (ArgSpec.positional nm T h)) := by
  intro nm t h d T ht
  refine ⟨?_, ?_, ?_⟩
  · intro hT
    subst hT
    simp [buildArgument, PyVal.getItem, PyVal.truthy, totypeV, ht, TyExpr.beq_refl]
  · intro hT
    have hb : TyExpr.beq T (TyExpr.plain ("bool")) = false := by
      cases hb : TyExpr.beq T (TyExpr.plain ("bool"))
      · rfl
      · exact absurd (TyExpr.eq_of_beq hb) hT
    simp [buildArgument, PyVal.getItem, PyVal.truthy, totypeV, ht, hb]
  · simp [buildArgument, PyVal.getItem, PyVal.truthy, totypeV, ht]

theorem c6_command_tree_argument_declaration_witness :
    buildArgument (PyVal.tuple [PyVal.str ("loud"), PyVal.ty (TyExpr.plain ("bool")),
        PyVal.none, PyVal.tuple [PyVal.bool true, PyVal.bool true]]) =
      Except.ok (ArgSpec.store_true ("loud") PyVal.none (PyVal.bool false)) :=
  (c6_command_tree_argument_declaration ("loud") (TyExpr.plain ("bool")) PyVal.none
    (PyVal.bool true) (TyExpr.plain ("bool")) rfl).1 rfl

/-- Claim C7.  For every dispatch of a parsed invocation whose function
record exists and whose parameter entries are well formed, run_args
reads the required parameters positionally from the parsed attributes
in declaration order, reads the optional parameters by name into a
keyword mapping, invokes the callable recorded on the namespace with
exactly those positional-then-keyword arguments, and returns the call's
value unmodified. -/
theorem c7_run_args_dispatch : ∀ (funcs : List (String × (PyCallable × PyVal)))
    (args : ParsedArgs) (c : PyCallable) (meta : PyVal) (plist : List PyVal),
    funcs.lookup args.fullname = some (c, meta) →
    meta.getItem 2 = Except.ok (PyVal.list plist) →
    (∀ x ∈ plist, WFParam args x) →
    run_args funcs args =
      Except.ok (args.func (specPositionalArgs args plist) (specKeywordArgs args plist)) := by
  intro funcs args c meta plist hl hm hwf
  simp [run_args, hl, hm, PyVal.pyIter, requiredVals_eq args plist hwf,
    keywordVals_eq args plist hwf]

theorem c7_run_args_dispatch_witness :
    run_args exFuncs exArgs =
      Except.ok (exArgs.func (specPositionalArgs exArgs exParamList)
        (specKeywordArgs exArgs exParamList)) := by
  refine c7_run_args_dispatch exFuncs exArgs exCallable exMeta exParamList rfl rfl ?_
  intro x hx
  simp only [exParamList, List.mem_cons, List.not_mem_nil, or_false] at hx
  rcases hx with h | h <;> subst h
  · exact ⟨"x", PyVal.ty (TyExpr.plain ("int")), PyVal.none, false, PyVal.none,
      PyVal.int 1, rfl, rfl⟩
  · exact ⟨"y", PyVal.ty (TyExpr.plain ("int")), PyVal.none, true, PyVal.int 3,
      PyVal.int 2, rfl, rfl⟩

/-- Claim C8.  For every function whose parsed documentation contains a
Results section, the documentation extractor's _parse raises; and no
successful _parse ever populates the return slot, so
documentation-sourced return metadata is never produced. -/
theorem c8_docstring_results_section_raises :
    (∀ f : PyFunc,
      (f.docTree.any (fun y => y.tagname == "section" && y.firstName == "results")) = true →
      ∃ e, function_parser_docstring_numpy._parse f = Except.error e) ∧
    (∀ (f : PyFunc) (v : PyVal), function_parser_docstring_numpy._parse f = Except.ok v →
      ∃ a b c, v = PyVal.list [a, b, c, PyVal.none]) := by
  constructor
  · intro f hany
    cases hdoc : f.doc with
    | none =>
        exact ⟨PyErr.typeError, by simp [function_parser_docstring_numpy._parse, hdoc]⟩
    | some s =>
        simp only [function_parser_docstring_numpy._parse, hdoc]
        have hres : (f.docTree.filter
            (fun y => y.tagname == "section" && y.firstName == "results")).isEmpty = false := by
          rw [List.isEmpty_eq_false]
          intro hnil
          rw [List.any_eq_true] at hany
          obtain ⟨x, hx, hpx⟩ := hany
          have := List.filter_eq_nil_iff.mp hnil x hx
          simp [hpx] at this
        simp only [function_parser_docstring_numpy.parseTree]
        split
        · exact ⟨PyErr.assertionError, rfl⟩
        · split
          · exact ⟨_, rfl⟩
          · simp [hres]
  · intro f v h
    cases hdoc : f.doc with
    | none => simp [function_parser_docstring_numpy._parse, hdoc] at h
    | some s =>
        simp only [function_parser_docstring_numpy._parse, hdoc] at h
        simp only [function_parser_docstring_numpy.parseTree] at h
        split at h
        · exact absurd h (by simp)
        · split at h
          · exact absurd h (by simp)
          · split at h
            · exact absurd h (by simp)
            · injection h with h2
              exact ⟨_, _, _, h2.symm⟩

theorem c8_docstring_results_section_raises_witness :
    ∃ e, function_parser_docstring_numpy._parse resultsSectionFunc = Except.error e :=
  c8_docstring_results_section_raises.1 resultsSectionFunc rfl

/-- Claim C9.  The shared format check rejects, with the
annotation-format error, any parameter-metadata record in which a false
optionality is paired with a non-null default (given the short and long
description slots pass their own checks, which run first). -/
theorem c9_check_rejects_false_optionality_with_default : ∀ (s l r : PyVal) (ps : List PyVal),
    strOrNone s = true → strOrNone l = true →
    (∃ x ∈ ps, ∃ n t d dv, x = PyVal.tuple [n, t, d, PyVal.tuple [PyVal.bool false, dv]] ∧
      dv.isNone = false) →
    function_parser_base.check (PyVal.list [s, l, PyVal.list ps, r]) =
      Except.error PyErr.annotationFormatError := by
  intro s l r ps hs hl hbad
  obtain ⟨x, hmem, n, t, d, dv, hx, hdv⟩ := hbad
  have hpx : paramOK x = false := by
    subst hx
    cases dv <;> simp_all [paramOK, PyVal.isNone]
  have hall : ps.all paramOK = false := by
    rw [List.all_eq_false]
    exact ⟨x, hmem, by simp [hpx]⟩
  simp [function_parser_base.check, PyVal.pyLen, PyVal.getItem, hs, hl, PyVal.isList,
    PyVal.isNone, hall]

theorem c9_check_rejects_false_optionality_with_default_witness :
    function_parser_base.check (PyVal.list [PyVal.none, PyVal.none,
        PyVal.list [PyVal.tuple [PyVal.str ("a"), PyVal.none, PyVal.none,
          PyVal.tuple [PyVal.bool false, PyVal.int 5]]], PyVal.none]) =
      Except.error PyErr.annotationFormatError := by
  refine c9_check_rejects_false_optionality_with_default PyVal.none PyVal.none PyVal.none
    [PyVal.tuple [PyVal.str ("a"), PyVal.none, PyVal.none,
      PyVal.tuple [PyVal.bool false, PyVal.int 5]]] rfl rfl ?_
  exact ⟨_, List.mem_singleton.mpr rfl, PyVal.str ("a"), PyVal.none, PyVal.none,
    PyVal.int 5, rfl, rfl⟩

/-- Claim C10.  For every function whose __doc__ is None the
documentation extractor's parse raises (dedent(None) raises TypeError
on the CPython versions this code targets) instead of returning an
all-absent record; consequently the signature-then-docstring pipeline
of docstringrunner fails on an undocumented function even when its
signature parses cleanly, and the function is dropped rather than the
error propagated exactly when the raised error's class is in the
discovery skip-list. -/
theorem c10_missing_docstring_extractor_raises :
    (∀ f : PyFunc, f.doc = Option.none →
      function_parser_docstring_numpy._parse f = Except.error PyErr.typeError) ∧
    (∀ (f : PyFunc) (s : PyVal), f.doc = Option.none →
      function_parser_signature.parse f = Except.ok s →
      function_parser_union.parse f = Except.error PyErr.typeError) ∧
    (∀ (nm : String) (f : PyFunc) (s : PyVal), f.doc = Option.none →
      function_parser_signature.parse f = Except.ok s →
      get_functions_f function_parser_union.parse [(nm, f)] [] =
          Except.error PyErr.typeError ∧
      get_functions_f function_parser_union.parse [(nm, f)] [PyErrClass.typeErrorC] =
          Except.ok []) := by
  refine ⟨?_, ?_, ?_⟩
  · intro f hdoc
    simp [function_parser_docstring_numpy._parse, hdoc]
  · intro f s hdoc hsig
    simp [function_parser_union.parse, function_parser_union._parse, hsig,
      function_parser_docstring_numpy.parse, function_parser_docstring_numpy._parse, hdoc]
  · intro nm f s hdoc hsig
    have hu : function_parser_union.parse f = Except.error PyErr.typeError := by
      simp [function_parser_union.parse, function_parser_union._parse, hsig,
        function_parser_docstring_numpy.parse, function_parser_docstring_numpy._parse, hdoc]
    constructor <;> simp [get_functions_f, hu, PyErr.isInstanceOf]

theorem c10_missing_docstring_extractor_raises_witness :
    function_parser_docstring_numpy._parse undocumentedFunc =
        Except.error PyErr.typeError ∧
    function_parser_union.parse undocumentedFunc = Except.error PyErr.typeError ∧
    get_functions_f function_parser_union.parse [("m.h", undocumentedFunc)]
        [PyErrClass.typeErrorC] = Except.ok [] :=
  ⟨c10_missing_docstring_extractor_raises.1 undocumentedFunc rfl,
   c10_missing_docstring_extractor_raises.2.1 undocumentedFunc undocumentedFuncSigMeta rfl rfl,
   (c10_missing_docstring_extractor_raises.2.2 ("m.h") undocumentedFunc
     undocumentedFuncSigMeta rfl rfl).2⟩
